import Mathlib

/-!
# EcoTrack server — shallow embedding

A shallow embedding of the membership-and-capacity core of the EcoTrack
server (`src/index.js`): the challenge/userChallenge data model, the
query-filter builder (`buildChallengeFilters`), the list endpoint
(`GET /challenges`), the create endpoint (`POST /challenges`), the partial
update (`PATCH /challenges/:id`), and the transactional join operation
(`POST /challenges/join/:id`).

Modelling conventions:
* JavaScript numbers that may be `NaN` are modelled by `Option Int`
  (`none` = `NaN`); otherwise machine numbers are modelled by `Int`.
* MongoDB documents are Lean structures; a collection is a `List`;
  `findOne`/`updateOne` act on the first matching element, mirroring
  MongoDB's single-document semantics.
* MongoDB's BSON comparison order is used for query bounds: `NaN`
  compares below every number, and `null` in a field never satisfies a
  `$gte`/`$lte` bound against a number/date.
* `new RegExp(pattern, "i")` is modelled on the literal-and-dot fragment
  of JavaScript regular expressions: `.` matches any character, every
  regex metacharacter outside that fragment is treated as a compile
  failure (as JavaScript throws on e.g. an unterminated `(`), and any
  other character matches itself.  The `i` flag is modelled by folding
  pattern literals and subject text to lower case.
* Dates are integers; JavaScript's lenient `new Date(string)` parsing is
  modelled on the ISO `YYYY-MM-DD` fragment (other strings are invalid
  dates), keyed so that date order equals integer order.
* The MongoDB transaction of the join route (`session.withTransaction`
  with abort on error) is modelled by returning the unchanged state on
  every failure; an infrastructure failure of the store is modelled by a
  `storeOk : Bool` parameter.
-/

namespace EcoTrack

/-- A JavaScript number that may be `NaN` (`none` = `NaN`). -/
abbrev JsNum := Option Int

/-- JavaScript `Math.max` on possibly-`NaN` numbers: `NaN` propagates. -/
def jsMax (a b : JsNum) : JsNum :=
  match a, b with
  | some x, some y => some (max x y)
  | _, _ => none

/-- JavaScript `Math.min` on possibly-`NaN` numbers: `NaN` propagates. -/
def jsMin (a b : JsNum) : JsNum :=
  match a, b with
  | some x, some y => some (min x y)
  | _, _ => none

/-- Value of a (non-empty) decimal digit prefix; `none` when the list
starts with no digit.  Used to model `parseInt`'s digit-prefix rule. -/
def digitPrefixVal (cs : List Char) : Option Nat :=
  let ds := cs.takeWhile Char.isDigit
  if ds.isEmpty then none
  else some (ds.foldl (fun a c => a * 10 + (c.toNat - 48)) 0)

/-- JavaScript `parseInt(s, 10)`: skip leading whitespace, optional sign,
longest digit prefix; `NaN` (= `none`) when no digit follows. -/
def jsParseInt (s : String) : Option Int :=
  match s.data.dropWhile Char.isWhitespace with
  | '-' :: r => (digitPrefixVal r).map (fun n => -(n : Int))
  | '+' :: r => (digitPrefixVal r).map (fun n => (n : Int))
  | r => (digitPrefixVal r).map (fun n => (n : Int))

/-- Split a character list at every occurrence of `sep`
(JavaScript `String.prototype.split` on a single-character separator). -/
def chSplit (sep : Char) : List Char → List (List Char)
  | [] => [[]]
  | c :: cs =>
    let r := chSplit sep cs
    if c = sep then [] :: r
    else
      match r with
      | [] => [[c]]
      | g :: gs => (c :: g) :: gs

/-- Strip whitespace at both ends (JavaScript `String.prototype.trim`). -/
def chTrim (cs : List Char) : List Char :=
  ((cs.dropWhile Char.isWhitespace).reverse.dropWhile Char.isWhitespace).reverse

/-- Numeric value of an all-digit, non-empty character list. -/
def chToNat? (cs : List Char) : Option Nat :=
  if cs.isEmpty then none
  else if cs.all Char.isDigit then
    some (cs.foldl (fun a c => a * 10 + (c.toNat - 48)) 0)
  else none

/-- JavaScript `new Date(string)` parsing, modelled on the ISO
`YYYY-MM-DD` fragment; any other string is an invalid date (`none`).
The integer key `y*10000 + m*100 + d` preserves chronological order. -/
def jsParseDate (s : String) : Option Int :=
  match chSplit '-' s.data with
  | [y, m, d] =>
    match chToNat? y, chToNat? m, chToNat? d with
    | some yn, some mn, some dn =>
      if 1 ≤ mn ∧ mn ≤ 12 ∧ 1 ≤ dn ∧ dn ≤ 31 then
        some ((yn : Int) * 10000 + (mn : Int) * 100 + (dn : Int))
      else none
    | _, _, _ => none
  | _ => none

/-- Helper `parseDateSafe` from the source: falsy input (`undefined`/`""`) and
unparsable strings both yield `null`. -/
def parseDateSafe (v : Option String) : Option Int :=
  match v with
  | none => none
  | some s => if s = "" then none else jsParseDate s

/-- Truthiness of an optional string query parameter
(absent and `""` are falsy). -/
def truthyStr (v : Option String) : Bool :=
  match v with
  | none => false
  | some s => decide (s ≠ "")

/-- The string value of an optional parameter (for use after a
`truthyStr` check). -/
def getStr (v : Option String) : String := v.getD ""

/-- JavaScript `v || d` on string query parameters (JavaScript `||` with a string
default: absent or empty falls back to the default). -/
def orDefault (v : Option String) (d : String) : String :=
  match v with
  | none => d
  | some s => if s = "" then d else s

/-- A token of the modelled regular-expression fragment:
`.` (any character) or a literal character. -/
inductive RTok where
  | dot : RTok
  | lit : Char → RTok
deriving DecidableEq

/-- Regex metacharacters outside the modelled literal-and-dot fragment;
a pattern containing one is treated as a compile failure.
(`Char.ofNat 123`/`125` are the curly braces.) -/
def metaChars : List Char :=
  ['\\', '^', '$', '*', '+', '?', '(', ')', '[', ']', '|', Char.ofNat 123, Char.ofNat 125]

/-- Compile a pattern string (already as characters) in the
literal-and-dot fragment; `none` on any metacharacter. -/
def regexCompile : List Char → Option (List RTok)
  | [] => some []
  | c :: cs =>
    if c ∈ metaChars then none
    else if c = '.' then (regexCompile cs).map (RTok.dot :: ·)
    else (regexCompile cs).map (RTok.lit c :: ·)

/-- Lower-case the literals of a compiled pattern (the `i` flag). -/
def applyIFlag (p : List RTok) : List RTok :=
  p.map (fun t =>
    match t with
    | RTok.dot => RTok.dot
    | RTok.lit c => RTok.lit c.toLower)

/-- Compile as `new RegExp(s, "i")`: compile in the modelled fragment and fold
literals to lower case. -/
def regexCompileCI (s : String) : Option (List RTok) :=
  (regexCompile s.data).map applyIFlag

/-- One token against one character. -/
def tokMatch : RTok → Char → Bool
  | RTok.dot, _ => true
  | RTok.lit c, d => c == d

/-- Match the whole pattern at the head of the text. -/
def matchHere : List RTok → List Char → Bool
  | [], _ => true
  | _ :: _, [] => false
  | t :: ts, c :: cs => tokMatch t c && matchHere ts cs

/-- Model of `RegExp.prototype.test`: match the pattern anywhere in the text. -/
def matchSearch : List RTok → List Char → Bool
  | p, [] => matchHere p []
  | p, c :: cs => matchHere p (c :: cs) || matchSearch p cs

/-- Lower-cased characters of a string (the `i`-flag subject fold). -/
def lowerChars (s : String) : List Char := s.data.map Char.toLower

/-- Substring containment on character lists (for the specification's
"case-insensitive substring match" reading of `search`). -/
def containsSub : List Char → List Char → Bool
  | n, [] => n.isEmpty
  | n, c :: t => List.isPrefixOf n (c :: t) || containsSub n t

/-- A stored Challenge document, with the fields `POST /challenges`
writes.  `owner` is the creator's id string (`none` = `null`);
`startDate`/`endDate` are `none` when a later update nulled them;
`maxParticipants` is `none` for `null`. -/
structure Challenge where
  _id : Nat
  title : String
  slug : String
  description : String
  category : Option String
  tags : List String
  owner : Option String
  startDate : Option Int
  endDate : Option Int
  participants : Int
  maxParticipants : Option Int
  location : Option String
  image : Option String
  isPublished : Option Bool
  metadata : Option String
  createdAt : Int
  updatedAt : Int
deriving DecidableEq

/-- A stored UserChallenge (membership) document. -/
structure UserChallenge where
  user : String
  challenge : Nat
  joinedAt : Int
  progress : Int
  status : String
  meta : Option String
  createdAt : Int
  updatedAt : Int
deriving DecidableEq

/-- The persistent state: the `challenges` and `userChallenges`
collections. -/
structure ServerState where
  challenges : List Challenge
  userChallenges : List UserChallenge
deriving DecidableEq

/-- The empty store. -/
def emptyState : ServerState := { challenges := [], userChallenges := [] }

/-- The query parameters recognised by `GET /challenges`. -/
structure ListQuery where
  page : Option String := none
  limit : Option String := none
  category : Option String := none
  startDate : Option String := none
  endDate : Option String := none
  participantsMin : Option String := none
  participantsMax : Option String := none
  search : Option String := none
deriving DecidableEq

/-- The filter document produced by `buildChallengeFilters`.  The
always-present baseline `isPublished: {$in: [true, null]}` is applied by
`matchesFilters`.  `partGte`/`partLte` hold a possibly-`NaN` bound
(`some none` = a `NaN` bound from an unparsable integer string). -/
structure ChallengeFilters where
  categories : Option (List String)
  startGte : Option Int
  startLte : Option Int
  partGte : Option JsNum
  partLte : Option JsNum
  search : Option (List RTok)
deriving DecidableEq

/-- The category list: split on `","`, trim, drop empties. -/
def parseCategories (s : String) : List String :=
  ((chSplit ',' s.data).map (fun g => String.mk (chTrim g))).filter (fun c => c ≠ "")

/-- Function `buildChallengeFilters` from the source.  Returns `none` exactly when
`new RegExp(q.search, "i")` would throw (pattern outside the modelled
fragment) — the one way the original function can fail. -/
def buildChallengeFilters (q : ListQuery) : Option ChallengeFilters :=
  match (if truthyStr q.search then (regexCompileCI (getStr q.search)).map some else some none) with
  | none => none
  | some sre =>
    some
      { categories :=
          if truthyStr q.category then
            (let cats := parseCategories (getStr q.category)
             if cats.isEmpty then none else some cats)
          else none
        startGte :=
          if truthyStr q.startDate || truthyStr q.endDate then parseDateSafe q.startDate
          else none
        startLte :=
          if truthyStr q.startDate || truthyStr q.endDate then parseDateSafe q.endDate
          else none
        partGte :=
          if truthyStr q.participantsMin then some (jsParseInt (getStr q.participantsMin))
          else none
        partLte :=
          if truthyStr q.participantsMax then some (jsParseInt (getStr q.participantsMax))
          else none
        search := sre }

/-- Comparison `participants >= bound` under BSON order: a `NaN` bound sits below
every number, so the bound is satisfied by every number. -/
def jsNumGe (p : Int) (b : JsNum) : Bool :=
  match b with
  | none => true
  | some x => decide (x ≤ p)

/-- Comparison `participants <= bound` under BSON order: only `NaN` itself sits at
or below a `NaN` bound, so no (real) number satisfies it. -/
def jsNumLe (p : Int) (b : JsNum) : Bool :=
  match b with
  | none => false
  | some x => decide (p ≤ x)

/-- A date field against a `$gte` bound: a `null` date never satisfies a
numeric/date bound. -/
def dateGe (v : Option Int) (b : Int) : Bool :=
  match v with
  | none => false
  | some d => decide (b ≤ d)

/-- A date field against a `$lte` bound. -/
def dateLe (v : Option Int) (b : Int) : Bool :=
  match v with
  | none => false
  | some d => decide (d ≤ b)

/-- The `$or` search clause over `title`, `description`, and the
elements of `tags`. -/
def searchMatches (p : List RTok) (c : Challenge) : Bool :=
  matchSearch p (lowerChars c.title) || matchSearch p (lowerChars c.description) ||
    c.tags.any (fun t => matchSearch p (lowerChars t))

/-- Whether a Challenge satisfies a filter document, including the
baseline `isPublished: {$in: [true, null]}` (false is excluded; `null`
or a missing field matches `null`). -/
def matchesFilters (f : ChallengeFilters) (c : Challenge) : Bool :=
  (match c.isPublished with
   | some b => b
   | none => true) &&
  (match f.categories with
   | none => true
   | some cats =>
     match c.category with
     | some cat => cats.contains cat
     | none => false) &&
  (match f.startGte with
   | none => true
   | some b => dateGe c.startDate b) &&
  (match f.startLte with
   | none => true
   | some b => dateLe c.startDate b) &&
  (match f.partGte with
   | none => true
   | some b => jsNumGe c.participants b) &&
  (match f.partLte with
   | none => true
   | some b => jsNumLe c.participants b) &&
  (match f.search with
   | none => true
   | some p => searchMatches p c)

/-- The search criterion alone, as the route evaluates it:
`none` when the pattern does not compile. -/
def searchCriterion (needle : String) (c : Challenge) : Option Bool :=
  (regexCompileCI needle).map (fun p => searchMatches p c)

/-- The specification's reading of the search criterion: `needle`
occurs case-insensitively as a substring of `title`, of `description`,
or of some element of `tags`. -/
def specSearchSubstring (needle : String) (c : Challenge) : Bool :=
  containsSub (lowerChars needle) (lowerChars c.title) ||
    containsSub (lowerChars needle) (lowerChars c.description) ||
    c.tags.any (fun t => containsSub (lowerChars needle) (lowerChars t))

/-- The `.sort({startDate: 1})` order on documents: `null` sorts before
every date. -/
def optDateLe (a b : Option Int) : Bool :=
  match a, b with
  | none, _ => true
  | some _, none => false
  | some x, some y => decide (x ≤ y)

/-- The sort relation of `GET /challenges`. -/
def startLe (a b : Challenge) : Prop := optDateLe a.startDate b.startDate = true

instance : DecidableRel startLe := fun a b =>
  inferInstanceAs (Decidable (optDateLe a.startDate b.startDate = true))

instance : IsTotal Challenge startLe := by
  constructor
  intro a b
  unfold startLe optDateLe
  cases a.startDate <;> cases b.startDate <;> simp
  omega

instance : IsTrans Challenge startLe := by
  constructor
  intro a b c
  unfold startLe optDateLe
  cases a.startDate <;> cases b.startDate <;> cases c.startDate <;> simp
  all_goals omega

/-- Sort a result set by `startDate` ascending. -/
def sortChallenges (l : List Challenge) : List Challenge := l.insertionSort startLe

/-- The response of `GET /challenges`. -/
structure ListResult where
  page : Int
  limit : Int
  total : Nat
  items : List Challenge
deriving DecidableEq

/-- Route `GET /challenges`: effective page is `Math.max(1, parseInt(page||"1"))`,
effective limit is `Math.min(100, parseInt(limit||"10"))`; the matching
documents are sorted by `startDate` ascending, then `skip`/`limit` are
applied.  `none` models a 500 response: a `NaN` page/limit, a negative
skip (rejected by the store), or a search pattern that fails to compile.
A limit of `0` is no limit and a negative limit acts as its absolute
value (MongoDB cursor semantics). -/
def listChallenges (q : ListQuery) (s : ServerState) : Option ListResult :=
  match jsMax (some 1) (jsParseInt (orDefault q.page "1")),
        jsMin (some 100) (jsParseInt (orDefault q.limit "10")) with
  | some p, some l =>
    if (p - 1) * l < 0 then none
    else
      match buildChallengeFilters q with
      | none => none
      | some f =>
        some { page := p, limit := l,
               total := (s.challenges.filter (matchesFilters f)).length,
               items :=
                 if l = 0 then
                   (sortChallenges (s.challenges.filter (matchesFilters f))).drop
                     ((p - 1) * l).toNat
                 else
                   ((sortChallenges (s.challenges.filter (matchesFilters f))).drop
                     ((p - 1) * l).toNat).take l.natAbs }
  | _, _ => none

/-- The body of `POST /challenges`.  `tags` may be absent, a single
value, or an array; `participants`/`maxParticipants` are numbers when
provided (`none` = absent or non-numeric, which `typeof` filters out). -/
structure CreateBody where
  title : Option String := none
  slug : Option String := none
  description : Option String := none
  category : Option String := none
  tags : Option (List String) := none
  tagSingle : Option String := none
  startDate : Option String := none
  endDate : Option String := none
  participants : Option Int := none
  maxParticipants : Option Int := none
  location : Option String := none
  image : Option String := none
  isPublished : Option Bool := none
  metadata : Option String := none
deriving DecidableEq

/-- Normalization `Array.isArray(tags) ? tags : tags ? [tags] : []`. -/
def normalizeTags (b : CreateBody) : List String :=
  match b.tags with
  | some l => l
  | none =>
    match b.tagSingle with
    | some s => if s = "" then [] else [s]
    | none => []

/-- JavaScript `v || null` on an optional string (empty string is falsy). -/
def orNullStr (v : Option String) : Option String :=
  match v with
  | none => none
  | some s => if s = "" then none else some s

/-- JavaScript `v || null` on an optional number (`0` is falsy). -/
def orNullInt (v : Option Int) : Option Int :=
  match v with
  | none => none
  | some n => if n = 0 then none else some n

/-- A non-falsy required string (`!body[f]` check of the create route). -/
def reqStr (v : Option String) : Option String :=
  match v with
  | none => none
  | some s => if s = "" then none else some s

/-- Outcome of `POST /challenges`. -/
inductive CreateResult where
  | ok : Challenge → CreateResult
  | missingField : String → CreateResult
  | invalidDate : CreateResult
  | slugConflict : CreateResult
deriving DecidableEq

/-- Route `POST /challenges`: required-field checks in source order, lenient
date parsing, document construction with the source's defaults, and the
unique-slug index surfacing as a conflict at insert. -/
def createChallenge (s : ServerState) (userId : Option String) (b : CreateBody)
    (newId : Nat) (now : Int) : CreateResult × ServerState :=
  match reqStr b.title with
  | none => (CreateResult.missingField "title", s)
  | some t =>
    match reqStr b.slug with
    | none => (CreateResult.missingField "slug", s)
    | some sl =>
      match reqStr b.description with
      | none => (CreateResult.missingField "description", s)
      | some d =>
        match reqStr b.startDate with
        | none => (CreateResult.missingField "startDate", s)
        | some sds =>
          match reqStr b.endDate with
          | none => (CreateResult.missingField "endDate", s)
          | some eds =>
            match jsParseDate sds, jsParseDate eds with
            | some sdv, some edv =>
              let doc : Challenge :=
                { _id := newId
                  title := t
                  slug := sl
                  description := d
                  category := orNullStr b.category
                  tags := normalizeTags b
                  owner := orNullStr userId
                  startDate := some sdv
                  endDate := some edv
                  participants := b.participants.getD 0
                  maxParticipants := orNullInt b.maxParticipants
                  location := orNullStr b.location
                  image := orNullStr b.image
                  isPublished := some (b.isPublished.getD true)
                  metadata := orNullStr b.metadata
                  createdAt := now
                  updatedAt := now }
              if s.challenges.any (fun c => c.slug == sl) then (CreateResult.slugConflict, s)
              else (CreateResult.ok doc, { s with challenges := s.challenges ++ [doc] })
            | _, _ => (CreateResult.invalidDate, s)

/-- The body of `PATCH /challenges/:id` (each field optionally
provided).  Dates arrive as strings, as in the route. -/
structure UpdateBody where
  title : Option String := none
  slug : Option String := none
  description : Option String := none
  category : Option String := none
  tags : Option (List String) := none
  owner : Option String := none
  startDate : Option String := none
  endDate : Option String := none
  participants : Option Int := none
  maxParticipants : Option Int := none
  location : Option String := none
  image : Option String := none
  isPublished : Option Bool := none
  metadata : Option String := none
  updatedAt : Option Int := none
deriving DecidableEq

/-- The `$set` document of the update route applied to an existing
Challenge: every provided field is written; a provided `startDate`/
`endDate` is re-parsed through `parseDateSafe` (unparsable becomes
`null`); `updatedAt` is always overwritten with the current time.  -/
def applyUpdate (c : Challenge) (b : UpdateBody) (now : Int) : Challenge :=
  { c with
    title := b.title.getD c.title
    slug := b.slug.getD c.slug
    description := b.description.getD c.description
    category := match b.category with | none => c.category | some v => some v
    tags := b.tags.getD c.tags
    owner := match b.owner with | none => c.owner | some v => some v
    startDate := match b.startDate with | none => c.startDate | some ds => parseDateSafe (some ds)
    endDate := match b.endDate with | none => c.endDate | some ds => parseDateSafe (some ds)
    participants := b.participants.getD c.participants
    maxParticipants := match b.maxParticipants with | none => c.maxParticipants | some v => some v
    location := match b.location with | none => c.location | some v => some v
    image := match b.image with | none => c.image | some v => some v
    isPublished := match b.isPublished with | none => c.isPublished | some v => some v
    metadata := match b.metadata with | none => c.metadata | some v => some v
    updatedAt := now }

/-- Model of `updateOne`/`findOneAndUpdate`: rewrite the first document with the
given id. -/
def updateFirst : List Challenge → Nat → (Challenge → Challenge) → List Challenge
  | [], _, _ => []
  | c :: rest, cid, f =>
    if c._id = cid then f c :: rest else c :: updateFirst rest cid f

/-- The state transition of an authorized `PATCH /challenges/:id`. -/
def updateChallengeInState (s : ServerState) (cid : Nat) (b : UpdateBody) (now : Int) :
    ServerState :=
  { s with challenges := updateFirst s.challenges cid (fun c => applyUpdate c b now) }

/-- Model of `findOne({_id})` on the challenges collection. -/
def findChallenge (l : List Challenge) (cid : Nat) : Option Challenge :=
  l.find? (fun c => c._id == cid)

/-- The denormalized counter of a stored challenge. -/
def getParticipants (s : ServerState) (cid : Nat) : Option Int :=
  (findChallenge s.challenges cid).map Challenge.participants

/-- Number of membership rows for one (user, challenge) pair. -/
def pairCount (rows : List UserChallenge) (u : String) (cid : Nat) : Nat :=
  rows.countP (fun r => r.user == u && r.challenge == cid)

/-- Number of membership rows for one challenge. -/
def challengeRowCount (rows : List UserChallenge) (cid : Nat) : Nat :=
  rows.countP (fun r => r.challenge == cid)

/-- The unique index on `(user, challenge)`: does a row for the pair
exist? -/
def hasMembership (rows : List UserChallenge) (u : String) (cid : Nat) : Bool :=
  rows.any (fun r => r.user == u && r.challenge == cid)

/-- The capacity guard of the join route:
`challenge.maxParticipants && participants >= maxParticipants`
(a `null` or `0` ceiling is falsy and skips the check). -/
def capacityBlocked (ch : Challenge) : Bool :=
  match ch.maxParticipants with
  | none => false
  | some m => decide (m ≠ 0) && decide (m ≤ ch.participants)

/-- The `$inc: {participants: 1}, $set: {updatedAt: now}` update on the first
document with the given id. -/
def incParticipants (l : List Challenge) (cid : Nat) (now : Int) : List Challenge :=
  updateFirst l cid (fun c => { c with participants := c.participants + 1, updatedAt := now })

/-- The userChallenge document the join route inserts. -/
def mkUserChallenge (u : String) (cid : Nat) (now : Int) : UserChallenge :=
  { user := u, challenge := cid, joinedAt := now, progress := 0, status := "joined",
    meta := none, createdAt := now, updatedAt := now }

/-- Outcome of `POST /challenges/join/:id` (HTTP mapping: `success` 201,
`notFound` 404, `capacityFull` 400 "Challenge is full", `alreadyJoined`
409 duplicate key, `storeError` 500). -/
inductive JoinResult where
  | success : UserChallenge → JoinResult
  | notFound : JoinResult
  | capacityFull : JoinResult
  | alreadyJoined : JoinResult
  | storeError : JoinResult
deriving DecidableEq

/-- The transactional body of `POST /challenges/join/:id`: read the
challenge, capacity guard, insert the membership row (duplicate key on
an existing pair), increment the counter — all inside
`session.withTransaction`, so every failure leaves the state unchanged.
`storeOk = false` models an infrastructure failure of the store. -/
def joinChallenge (storeOk : Bool) (s : ServerState) (u : String) (cid : Nat) (now : Int) :
    JoinResult × ServerState :=
  if storeOk = false then (JoinResult.storeError, s)
  else
    match findChallenge s.challenges cid with
    | none => (JoinResult.notFound, s)
    | some ch =>
      if capacityBlocked ch then (JoinResult.capacityFull, s)
      else if hasMembership s.userChallenges u cid then (JoinResult.alreadyJoined, s)
      else
        (JoinResult.success (mkUserChallenge u cid now),
         { challenges := incParticipants s.challenges cid now,
           userChallenges := s.userChallenges ++ [mkUserChallenge u cid now] })

/-- One join request (with its store-availability flag and timestamp). -/
structure JoinReq where
  ok : Bool
  user : String
  cid : Nat
  now : Int

/-- Run a sequence of join requests against a state. -/
def applyJoins (s : ServerState) (reqs : List JoinReq) : ServerState :=
  reqs.foldl (fun st r => (joinChallenge r.ok st r.user r.cid r.now).2) s

/-- The consistency invariant of one challenge: the denormalized counter
equals the number of membership rows, and respects a truthy capacity
ceiling. -/
def ChallengeInv (s : ServerState) (cid : Nat) : Prop :=
  ∀ ch, findChallenge s.challenges cid = some ch →
    ch.participants = (challengeRowCount s.userChallenges cid : Int) ∧
    ∀ m, ch.maxParticipants = some m → m ≠ 0 → ch.participants ≤ m

instance (s : ServerState) (cid : Nat) : Decidable (ChallengeInv s cid) := by
  unfold ChallengeInv
  exact inferInstance

/-! ## Helper lemmas -/

theorem findChallenge_updateFirst_self (l : List Challenge) (cid : Nat)
    (f : Challenge → Challenge) (hid : ∀ c, (f c)._id = c._id) :
    findChallenge (updateFirst l cid f) cid = (findChallenge l cid).map f := by
  induction l with
  | nil => rfl
  | cons c rest ih =>
    by_cases hc : c._id = cid
    · simp [updateFirst, hc, findChallenge, List.find?_cons_of_pos, hid c]
    · have h2 : (c._id == cid) = false := by simpa using hc
      simp only [updateFirst, if_neg hc, findChallenge, List.find?_cons, h2]
      exact ih

theorem findChallenge_updateFirst_other (l : List Challenge) (cid cid' : Nat)
    (f : Challenge → Challenge) (hid : ∀ c, (f c)._id = c._id) (hne : cid' ≠ cid) :
    findChallenge (updateFirst l cid' f) cid = findChallenge l cid := by
  induction l with
  | nil => rfl
  | cons c rest ih =>
    by_cases hc : c._id = cid'
    · have h1 : ((f c)._id == cid) = false := by
        simp [hid c, hc]
        omega
      have h2 : (c._id == cid) = false := by
        simp [hc]
        omega
      simp only [updateFirst, if_pos hc, findChallenge, List.find?_cons, h1, h2]
    · by_cases h3 : c._id = cid
      · simp only [updateFirst, if_neg hc, findChallenge, List.find?_cons,
          show (c._id == cid) = true by simpa using h3]
      · simp only [updateFirst, if_neg hc, findChallenge, List.find?_cons,
          show (c._id == cid) = false by simpa using h3]
        exact ih

theorem findChallenge_incParticipants_self (l : List Challenge) (cid : Nat) (now : Int) :
    findChallenge (incParticipants l cid now) cid
      = (findChallenge l cid).map
          (fun c => { c with participants := c.participants + 1, updatedAt := now }) :=
  findChallenge_updateFirst_self l cid
    (fun c => { c with participants := c.participants + 1, updatedAt := now }) (fun _ => rfl)

theorem findChallenge_incParticipants_other (l : List Challenge) (cid cid' : Nat) (now : Int)
    (hne : cid' ≠ cid) :
    findChallenge (incParticipants l cid' now) cid = findChallenge l cid :=
  findChallenge_updateFirst_other l cid cid'
    (fun c => { c with participants := c.participants + 1, updatedAt := now }) (fun _ => rfl) hne

theorem challengeRowCount_append (rows : List UserChallenge) (uc : UserChallenge) (cid : Nat) :
    challengeRowCount (rows ++ [uc]) cid
      = challengeRowCount rows cid + (if uc.challenge = cid then 1 else 0) := by
  unfold challengeRowCount
  rw [List.countP_append]
  by_cases h : uc.challenge = cid <;> simp [List.countP_cons, h]

theorem pairCount_append (rows : List UserChallenge) (uc : UserChallenge)
    (u : String) (cid : Nat) :
    pairCount (rows ++ [uc]) u cid
      = pairCount rows u cid + (if uc.user = u ∧ uc.challenge = cid then 1 else 0) := by
  unfold pairCount
  rw [List.countP_append]
  by_cases h1 : uc.user = u <;> by_cases h2 : uc.challenge = cid <;>
    simp [List.countP_cons, h1, h2]

theorem pairCount_eq_zero_of_not_member (rows : List UserChallenge) (u : String) (cid : Nat)
    (h : hasMembership rows u cid = false) : pairCount rows u cid = 0 := by
  unfold hasMembership at h
  unfold pairCount
  rw [List.countP_eq_zero]
  intro r hr
  rw [List.any_eq_false] at h
  exact fun hc => h r hr hc

/-- Case anatomy of the join route: either a failure left the state
unchanged, or the challenge was found with an open capacity check, no
prior membership existed, and exactly the row insert and the counter
increment happened. -/
theorem joinChallenge_cases (ok : Bool) (s : ServerState) (u : String) (cid : Nat) (now : Int) :
    ((∀ uc, (joinChallenge ok s u cid now).1 ≠ JoinResult.success uc) ∧
      (joinChallenge ok s u cid now).2 = s) ∨
    ((joinChallenge ok s u cid now).1 = JoinResult.success (mkUserChallenge u cid now) ∧
      (joinChallenge ok s u cid now).2 =
        { challenges := incParticipants s.challenges cid now,
          userChallenges := s.userChallenges ++ [mkUserChallenge u cid now] } ∧
      hasMembership s.userChallenges u cid = false ∧
      ∃ ch, findChallenge s.challenges cid = some ch ∧ capacityBlocked ch = false) := by
  unfold joinChallenge
  by_cases hok : ok = false
  · left
    simp [hok]
  · simp only [if_neg hok]
    match hfind : findChallenge s.challenges cid with
    | none => left; simp
    | some ch =>
      by_cases hcap : capacityBlocked ch = true
      · left
        simp [hcap]
      · simp only [if_neg hcap]
        by_cases hmem : hasMembership s.userChallenges u cid = true
        · left
          simp [hmem]
        · right
          refine ⟨by simp [hmem], by simp [hmem], by simpa using hmem,
            ch, rfl, by simpa using hcap⟩

/-- A concrete stored challenge for witness states. -/
def mkChallengeW (cid : Nat) (parts : Int) (maxP : Option Int) : Challenge :=
  { _id := cid, title := "Tree Planting", slug := "tree-planting",
    description := "plant trees", category := none, tags := [], owner := none,
    startDate := some 20240101, endDate := some 20240201, participants := parts,
    maxParticipants := maxP, location := none, image := none,
    isPublished := some true, metadata := none, createdAt := 0, updatedAt := 0 }

/-- One challenge (capacity 2, no members) for witnesses. -/
def joinWitnessState : ServerState :=
  { challenges := [mkChallengeW 1 0 (some 2)], userChallenges := [] }

/-! ## C1 -/

/-- C1: for every join request, on success the membership store gained
exactly the one new row for the (user, challenge) pair — it had none
before, it has exactly one after — and the challenge's `participants`
counter increased by exactly 1 relative to its value at the start of the
transaction; on any failure (missing challenge, capacity exceeded,
duplicate membership, or store error) the state of both stores is
unchanged. -/
theorem join_success_exact_effects_or_rollback (ok : Bool) (s : ServerState) (u : String)
    (cid : Nat) (now : Int) :
    (∀ uc, (joinChallenge ok s u cid now).1 = JoinResult.success uc →
      (joinChallenge ok s u cid now).2.userChallenges = s.userChallenges ++ [uc] ∧
      uc.user = u ∧ uc.challenge = cid ∧
      pairCount s.userChallenges u cid = 0 ∧
      pairCount (joinChallenge ok s u cid now).2.userChallenges u cid = 1 ∧
      getParticipants (joinChallenge ok s u cid now).2 cid
        = (getParticipants s cid).map (fun n => n + 1)) ∧
    ((∀ uc, (joinChallenge ok s u cid now).1 ≠ JoinResult.success uc) →
      (joinChallenge ok s u cid now).2 = s) := by
  rcases joinChallenge_cases ok s u cid now with ⟨hne, hst⟩ | ⟨hres, hst, hmem, ch, hfind, hcap⟩
  · exact ⟨fun uc huc => absurd huc (hne uc), fun _ => hst⟩
  · constructor
    · intro uc huc
      rw [hres] at huc
      injection huc with huc
      subst huc
      have hzero : pairCount s.userChallenges u cid = 0 :=
        pairCount_eq_zero_of_not_member _ _ _ hmem
      refine ⟨by rw [hst], rfl, rfl, hzero, ?_, ?_⟩
      · rw [hst]
        simp only []
        rw [pairCount_append, hzero]
        simp [mkUserChallenge]
      · rw [hst]
        unfold getParticipants
        have hinc : findChallenge (incParticipants s.challenges cid now) cid
            = (findChallenge s.challenges cid).map
                (fun c => { c with participants := c.participants + 1, updatedAt := now }) :=
          findChallenge_updateFirst_self _ _ _ (fun c => rfl)
        simp only []
        rw [hinc, hfind]
        rfl
    · intro hne'
      exact absurd hres (hne' _)

/-- Witness for C1 at a concrete successful join. -/
theorem join_success_exact_effects_or_rollback_witness :
    pairCount joinWitnessState.userChallenges "u1" 1 = 0 ∧
    pairCount (joinChallenge true joinWitnessState "u1" 1 5).2.userChallenges "u1" 1 = 1 ∧
    getParticipants (joinChallenge true joinWitnessState "u1" 1 5).2 1
      = (getParticipants joinWitnessState 1).map (fun n => n + 1) := by
  have h := (join_success_exact_effects_or_rollback true joinWitnessState "u1" 1 5).1
      (mkUserChallenge "u1" 1 5) (by decide)
  exact ⟨h.2.2.2.1, h.2.2.2.2.1, h.2.2.2.2.2⟩

/-! ## C2 -/

/-- One join step preserves the counter/capacity invariant of every
challenge. -/
theorem joinChallenge_preserves_inv (ok : Bool) (s : ServerState) (u : String) (c' : Nat)
    (now : Int) (cid : Nat) (h : ChallengeInv s cid) :
    ChallengeInv (joinChallenge ok s u c' now).2 cid := by
  rcases joinChallenge_cases ok s u c' now with ⟨_, hst⟩ | ⟨_, hst, hmem, ch, hfind, hcap⟩
  · rw [hst]; exact h
  · rw [hst]
    intro ch' hch'
    by_cases hc : c' = cid
    · subst hc
      have hfc : findChallenge (incParticipants s.challenges c' now) c'
          = some { ch with participants := ch.participants + 1, updatedAt := now } := by
        rw [findChallenge_incParticipants_self, hfind]
        rfl
      have hch2 : ch' = { ch with participants := ch.participants + 1, updatedAt := now } := by
        have h4 := hfc.symm.trans hch'
        injection h4 with h4
        exact h4.symm
      subst hch2
      have h1 := (h ch hfind).1
      constructor
      · show ch.participants + 1
          = ((challengeRowCount (s.userChallenges ++ [mkUserChallenge u c' now]) c' : Nat) : Int)
        rw [challengeRowCount_append,
          if_pos (show (mkUserChallenge u c' now).challenge = c' from rfl)]
        push_cast
        omega
      · intro m hm hm0
        have hm' : ch.maxParticipants = some m := hm
        have h2 : ¬(m ≤ ch.participants) := by
          unfold capacityBlocked at hcap
          rw [hm'] at hcap
          simp only [Bool.and_eq_false_iff, decide_eq_false_iff_not, not_not] at hcap
          rcases hcap with h5 | h5
          · exact absurd h5 hm0
          · exact h5
        show ch.participants + 1 ≤ m
        omega
    · have hch2 : findChallenge s.challenges cid = some ch' :=
        ((findChallenge_incParticipants_other s.challenges cid c' now hc).symm.trans hch')
      have h3 := h ch' hch2
      refine ⟨?_, h3.2⟩
      show ch'.participants
        = ((challengeRowCount (s.userChallenges ++ [mkUserChallenge u c' now]) cid : Nat) : Int)
      rw [challengeRowCount_append,
        if_neg (show ¬(mkUserChallenge u c' now).challenge = cid from hc)]
      simpa using h3.1

/-- C2 (amended): for every challenge that satisfies the
counter-equals-rows and capacity invariant, any sequence of join
operations preserves it — the counter equals the number of persisted
UserChallenge rows and never exceeds a truthy `maxParticipants`.
(The unamended claim fails because create and update can install an
arbitrary counter, see the counterexample.) -/
theorem join_only_preserves_participants_invariant (reqs : List JoinReq) (s : ServerState)
    (cid : Nat) (h : ChallengeInv s cid) : ChallengeInv (applyJoins s reqs) cid := by
  induction reqs generalizing s with
  | nil => exact h
  | cons r rs ih =>
    exact ih _ (joinChallenge_preserves_inv r.ok s r.user r.cid r.now cid h)

/-- Witness for C2: the invariant holds after a concrete sequence of
three joins (success, duplicate rejection, success). -/
theorem join_only_preserves_participants_invariant_witness :
    ChallengeInv joinWitnessState 1 ∧
    ChallengeInv
      (applyJoins joinWitnessState
        [⟨true, "u1", 1, 3⟩, ⟨true, "u1", 1, 4⟩, ⟨true, "u2", 1, 5⟩]) 1 :=
  ⟨by decide, join_only_preserves_participants_invariant _ _ _ (by decide)⟩

/-- A create body carrying an explicit nonzero `participants` counter,
larger than its own `maxParticipants`. -/
def c2Body : CreateBody :=
  { title := some "T", slug := some "sl", description := some "D",
    startDate := some "2024-01-01", endDate := some "2024-02-01",
    participants := some 10, maxParticipants := some 5 }

/-- The store after that single create. -/
def c2State : ServerState := (createChallenge emptyState (some "owner1") c2Body 1 0).2

/-- C2 counterexample: after the operation sequence consisting of one
create request (`participants: 10`, `maxParticipants: 5`), the stored
counter is 10, exceeding `maxParticipants = 5`, and differs from the
number of UserChallenge rows (0) — the claimed invariant is false. -/
theorem participants_invariant_create_counterexample :
    getParticipants c2State 1 = some 10 ∧
    (findChallenge c2State.challenges 1).map Challenge.maxParticipants = some (some 5) ∧
    challengeRowCount c2State.userChallenges 1 = 0 ∧
    ¬ChallengeInv c2State 1 := by decide

/-! ## C3 -/

/-- A full (capacity 1) challenge that user u1 has already joined. -/
def c3State : ServerState :=
  { challenges := [mkChallengeW 1 1 (some 1)], userChallenges := [mkUserChallenge "u1" 1 2] }

/-- C3 counterexample: user u1 already holds a membership row for
challenge 1, yet a repeated join fails with the capacity error
("Challenge is full", HTTP 400), not the duplicate-membership error
(HTTP 409), because the capacity check runs before the insert.  The
spec's own scenario (join, then join again) hits this whenever the first
join filled the challenge. -/
theorem duplicate_join_full_challenge_counterexample :
    hasMembership c3State.userChallenges "u1" 1 = true ∧
    (joinChallenge true c3State "u1" 1 9).1 = JoinResult.capacityFull ∧
    (joinChallenge true c3State "u1" 1 9).1 ≠ JoinResult.alreadyJoined ∧
    (joinChallenge true c3State "u1" 1 9).2 = c3State := by decide

/-- C3 (amended): when a UserChallenge for (user, challenge) already
exists, the challenge exists, and the capacity check passes
(`maxParticipants` falsy or `participants < maxParticipants`), the join
fails with the duplicate-membership error and the state — in particular
the `participants` counter — is unchanged. -/
theorem duplicate_join_rejected_when_capacity_open (s : ServerState) (u : String) (cid : Nat)
    (now : Int) (ch : Challenge) (hfind : findChallenge s.challenges cid = some ch)
    (hcap : capacityBlocked ch = false)
    (hmem : hasMembership s.userChallenges u cid = true) :
    joinChallenge true s u cid now = (JoinResult.alreadyJoined, s) := by
  unfold joinChallenge
  simp [hfind, hcap, hmem]

/-- A challenge with open capacity that user u1 has already joined. -/
def c3WitnessState : ServerState :=
  { challenges := [mkChallengeW 1 1 (some 5)], userChallenges := [mkUserChallenge "u1" 1 2] }

/-- Witness for C3 (amended) at a concrete duplicate join. -/
theorem duplicate_join_rejected_when_capacity_open_witness :
    joinChallenge true c3WitnessState "u1" 1 9 = (JoinResult.alreadyJoined, c3WitnessState) :=
  duplicate_join_rejected_when_capacity_open c3WitnessState "u1" 1 9
    (mkChallengeW 1 1 (some 5)) (by decide) (by decide) (by decide)

/-! ## C4 -/

/-- A challenge created with capacity 5 whose `maxParticipants` an
authorized update then set to `0`. -/
def c4State : ServerState :=
  updateChallengeInState
    { challenges := [mkChallengeW 1 0 (some 5)], userChallenges := [] }
    1 { maxParticipants := some 0 } 1

/-- C4 counterexample: challenge 1 has `maxParticipants` set to `0`
(installed verbatim by the update route) and `participants = 0 ≥ 0`, yet
a join succeeds instead of failing with the capacity error — the guard
`challenge.maxParticipants && ...` skips the check for the falsy value
`0`. -/
theorem capacity_zero_max_counterexample :
    (findChallenge c4State.challenges 1).map Challenge.maxParticipants = some (some 0) ∧
    getParticipants c4State 1 = some 0 ∧
    (joinChallenge true c4State "u1" 1 9).1 = JoinResult.success (mkUserChallenge "u1" 1 9) ∧
    (joinChallenge true c4State "u1" 1 9).1 ≠ JoinResult.capacityFull := by decide

/-- C4 (amended): for every join request (with a working store)
targeting an existing challenge whose `maxParticipants` is set to a
nonzero (truthy) value and whose `participants` is at least that value,
the operation fails with the capacity error and applies no effects. -/
theorem capacity_exceeded_rejected_when_max_truthy (s : ServerState) (u : String) (cid : Nat)
    (now : Int) (ch : Challenge) (m : Int)
    (hfind : findChallenge s.challenges cid = some ch)
    (hm : ch.maxParticipants = some m) (hm0 : m ≠ 0) (hge : m ≤ ch.participants) :
    joinChallenge true s u cid now = (JoinResult.capacityFull, s) := by
  have hcap : capacityBlocked ch = true := by
    unfold capacityBlocked
    rw [hm]
    simp [hm0, hge]
  unfold joinChallenge
  simp [hfind, hcap]

/-- A challenge at its capacity (3 of 3). -/
def c4WitnessState : ServerState :=
  { challenges := [mkChallengeW 1 3 (some 3)], userChallenges := [] }

/-- Witness for C4 (amended) at a concrete full challenge. -/
theorem capacity_exceeded_rejected_when_max_truthy_witness :
    joinChallenge true c4WitnessState "u2" 1 7 = (JoinResult.capacityFull, c4WitnessState) :=
  capacity_exceeded_rejected_when_max_truthy c4WitnessState "u2" 1 7
    (mkChallengeW 1 3 (some 3)) 3 (by decide) (by decide) (by decide) (by decide)

/-! ## C5 -/

/-- A create body carrying an explicit `participants: 5`. -/
def c5Body : CreateBody :=
  { title := some "T", slug := some "s5", description := some "D",
    startDate := some "2024-01-01", endDate := some "2024-02-01",
    participants := some 5 }

/-- C5 counterexample: a successful create whose body carries
`participants: 5` stores a challenge whose counter is 5, not 0 — the
caller of create can install a nonzero initial count
(`typeof body.participants === "number" ? body.participants : 0`). -/
theorem create_nonzero_participants_counterexample :
    getParticipants (createChallenge emptyState (some "o") c5Body 1 0).2 1 = some 5 ∧
    (5 : Int) ≠ 0 := by decide

/-- C5 (amended): a successful create stores as `participants` the
body's numeric `participants` field when present and 0 only when it is
absent — so create (and likewise update, which writes the field
verbatim) can install a nonzero count; the counter is not reserved to
the join path. -/
theorem create_participants_from_body_or_zero (s : ServerState) (uid : Option String)
    (b : CreateBody) (nid : Nat) (now : Int) (c : Challenge) (s' : ServerState)
    (hok : createChallenge s uid b nid now = (CreateResult.ok c, s')) :
    c.participants = b.participants.getD 0 := by
  unfold createChallenge at hok
  repeat' split at hok
  all_goals simp only [Prod.mk.injEq, reduceCtorEq, false_and, CreateResult.ok.injEq] at hok
  rw [← hok.1]

/-- A create body with no `participants` field. -/
def c5WitnessBody : CreateBody :=
  { title := some "T", slug := some "s5w", description := some "D",
    startDate := some "2024-01-01", endDate := some "2024-02-01" }

/-- The document that create stores for `c5WitnessBody`. -/
def c5WitnessDoc : Challenge :=
  { _id := 1, title := "T", slug := "s5w", description := "D", category := none, tags := [],
    owner := some "o", startDate := some 20240101, endDate := some 20240201,
    participants := 0, maxParticipants := none, location := none, image := none,
    isPublished := some true, metadata := none, createdAt := 0, updatedAt := 0 }

/-- Witness for C5 (amended) at a concrete create. -/
theorem create_participants_from_body_or_zero_witness :
    c5WitnessDoc.participants = c5WitnessBody.participants.getD 0 :=
  create_participants_from_body_or_zero emptyState (some "o") c5WitnessBody 1 0 c5WitnessDoc
    (createChallenge emptyState (some "o") c5WitnessBody 1 0).2 (by decide)

/-! ## C10 -/

/-- A create body with the falsy capacity `maxParticipants: 0`. -/
def c10Body : CreateBody :=
  { title := some "T", slug := some "s10", description := some "D",
    startDate := some "2024-01-01", endDate := some "2024-02-01",
    maxParticipants := some 0 }

/-- A stored challenge with `maxParticipants = null`. -/
def c10State : ServerState :=
  { challenges := [mkChallengeW 1 0 none], userChallenges := [] }

/-- C10: a create whose `maxParticipants` is falsy (absent or 0) stores
`null` (`body.maxParticipants || null`), and a join on any challenge
whose stored `maxParticipants` is falsy (null or 0) never fails with the
capacity error. -/
theorem falsy_max_participants_skips_capacity (s : ServerState) (uid : Option String)
    (b : CreateBody) (nid : Nat) (now : Int)
    (hfalsy : b.maxParticipants = none ∨ b.maxParticipants = some 0) :
    (∀ c s', createChallenge s uid b nid now = (CreateResult.ok c, s') →
      c.maxParticipants = none) ∧
    (∀ ok st (u : String) (cid : Nat) (t : Int) ch,
      findChallenge st.challenges cid = some ch →
      (ch.maxParticipants = none ∨ ch.maxParticipants = some 0) →
      (joinChallenge ok st u cid t).1 ≠ JoinResult.capacityFull) := by
  constructor
  · intro c s' hok
    unfold createChallenge at hok
    repeat' split at hok
    all_goals simp only [Prod.mk.injEq, reduceCtorEq, false_and, CreateResult.ok.injEq] at hok
    rw [← hok.1]
    show orNullInt b.maxParticipants = none
    rcases hfalsy with h | h <;> simp [orNullInt, h]
  · intro ok st u cid t ch hfind hf
    have hcap : capacityBlocked ch = false := by
      rcases hf with h | h <;> simp [capacityBlocked, h]
    unfold joinChallenge
    by_cases hok : ok = false
    · simp [hok]
    · simp only [if_neg hok, hfind, hcap, Bool.false_eq_true, if_false]
      split <;> simp

/-- The document that create stores for `c10Body`. -/
def c10Doc : Challenge :=
  { _id := 1, title := "T", slug := "s10", description := "D", category := none, tags := [],
    owner := some "o", startDate := some 20240101, endDate := some 20240201,
    participants := 0, maxParticipants := none, location := none, image := none,
    isPublished := some true, metadata := none, createdAt := 0, updatedAt := 0 }

/-- Witness for C10 at a concrete create (`maxParticipants: 0`) and a
concrete join on a `null`-capacity challenge. -/
theorem falsy_max_participants_skips_capacity_witness :
    c10Doc.maxParticipants = none ∧
    (joinChallenge true c10State "u" 1 2).1 ≠ JoinResult.capacityFull := by
  have h := falsy_max_participants_skips_capacity emptyState (some "o") c10Body 1 0 (Or.inr rfl)
  exact ⟨h.1 c10Doc (createChallenge emptyState (some "o") c10Body 1 0).2 (by decide),
    h.2 true c10State "u" 1 2 (mkChallengeW 1 0 none) (by decide) (Or.inl rfl)⟩

/-! ## C9 -/

/-- C6 counterexample: with `limit=0`, the effective limit is
`Math.min(100, 0) = 0`, which lies outside `[1, 100]` — the limit is not
clamped from below. -/
theorem limit_not_clamped_below_counterexample :
    (listChallenges { limit := some "0" } emptyState).map ListResult.limit = some 0 ∧
    ¬(1 ≤ (0 : Int)) := by decide

theorem jsMax_one_ge (x : JsNum) (p : Int) (h : jsMax (some 1) x = some p) : 1 ≤ p := by
  cases x with
  | none => simp [jsMax] at h
  | some y =>
    simp only [jsMax] at h
    injection h with h
    exact h ▸ le_max_left 1 y

theorem jsMin_hundred_le (x : JsNum) (l : Int) (h : jsMin (some 100) x = some l) : l ≤ 100 := by
  cases x with
  | none => simp [jsMin] at h
  | some y =>
    simp only [jsMin] at h
    injection h with h
    exact h ▸ min_le_left 100 y

/-- C6 (amended): for every successful list request, the effective page
is at least 1 and the effective limit at most 100 (the limit is clamped
from above only — values below 1 pass through, as the counterexample
shows), and the returned items are sorted by `startDate` ascending. -/
theorem list_page_limit_sorted (q : ListQuery) (s : ServerState) (r : ListResult)
    (h : listChallenges q s = some r) :
    1 ≤ r.page ∧ r.limit ≤ 100 ∧ List.Sorted startLe r.items := by
  unfold listChallenges at h
  cases hp : jsMax (some 1) (jsParseInt (orDefault q.page "1")) with
  | none =>
    rw [hp] at h
    cases hl : jsMin (some 100) (jsParseInt (orDefault q.limit "10")) with
    | none => rw [hl] at h; simp at h
    | some l => rw [hl] at h; simp at h
  | some p =>
    rw [hp] at h
    cases hl : jsMin (some 100) (jsParseInt (orDefault q.limit "10")) with
    | none => rw [hl] at h; simp at h
    | some l =>
      rw [hl] at h
      by_cases hskip : (p - 1) * l < 0
      · simp [hskip] at h
      · cases hf : buildChallengeFilters q with
        | none => simp [hskip, hf] at h
        | some f =>
          simp only [hskip, hf, if_false, Option.some.injEq] at h
          subst h
          refine ⟨jsMax_one_ge _ _ hp, jsMin_hundred_le _ _ hl, ?_⟩
          have hs : List.Sorted startLe
              (sortChallenges (s.challenges.filter (matchesFilters f))) :=
            List.sorted_insertionSort startLe _
          have hd : List.Sorted startLe
              ((sortChallenges (s.challenges.filter (matchesFilters f))).drop
                ((p - 1) * l).toNat) :=
            List.Pairwise.sublist (List.drop_sublist _ _) hs
          show List.Sorted startLe (if l = 0 then _ else _)
          split
          · exact hd
          · exact List.Pairwise.sublist (List.take_sublist _ _) hd

/-- Two published challenges stored out of `startDate` order. -/
def c6ChA : Challenge := { mkChallengeW 1 0 none with startDate := some 20240315 }

/-- The second witness challenge, starting earlier. -/
def c6ChB : Challenge :=
  { mkChallengeW 2 0 none with slug := "beach-cleanup", startDate := some 20240110 }

/-- The witness store for the list endpoint. -/
def c6WitnessState : ServerState := { challenges := [c6ChA, c6ChB], userChallenges := [] }

/-- What the list endpoint returns on the witness store with no query
parameters: defaults page 1 / limit 10, items sorted by `startDate`. -/
def c6WitnessResult : ListResult :=
  { page := 1, limit := 10, total := 2, items := [c6ChB, c6ChA] }

/-- Witness for C6 (amended) at a concrete list request. -/
theorem list_page_limit_sorted_witness :
    1 ≤ c6WitnessResult.page ∧ c6WitnessResult.limit ≤ 100 ∧
    List.Sorted startLe c6WitnessResult.items :=
  list_page_limit_sorted {} c6WitnessState c6WitnessResult (by decide)

/-! ## C8 -/

/-- A challenge whose title/description contain no dot. -/
def c8Challenge : Challenge :=
  { mkChallengeW 1 0 none with title := "x", description := "y", tags := [] }

/-- C8 counterexample: the search string is used as a regular-expression
pattern, not a literal substring: the pattern `"."` matches the title
`"x"` (any character), although `"."` is not a substring of `"x"`, of
`"y"`, or of any tag. -/
theorem search_regex_not_substring_counterexample :
    searchCriterion "." c8Challenge = some true ∧
    specSearchSubstring "." c8Challenge = false := by decide

theorem regexCompile_all_literal (cs : List Char)
    (h : ∀ c ∈ cs, c ∉ metaChars ∧ c ≠ '.') :
    regexCompile cs = some (cs.map RTok.lit) := by
  induction cs with
  | nil => rfl
  | cons c cs ih =>
    obtain ⟨h1, h2⟩ := h c (List.mem_cons_self c cs)
    simp [regexCompile, h1, h2, ih (fun d hd => h d (List.mem_cons_of_mem c hd))]

theorem applyIFlag_lits (cs : List Char) :
    applyIFlag (cs.map RTok.lit) = (cs.map Char.toLower).map RTok.lit := by
  induction cs with
  | nil => rfl
  | cons c cs ih => simp [applyIFlag]

theorem matchHere_lits (n : List Char) : ∀ h : List Char,
    matchHere (n.map RTok.lit) h = List.isPrefixOf n h := by
  induction n with
  | nil => intro h; cases h <;> rfl
  | cons c cs ih =>
    intro h
    cases h with
    | nil => rfl
    | cons d hs => simp [matchHere, tokMatch, List.isPrefixOf, ih]

theorem matchSearch_lits (n h : List Char) :
    matchSearch (n.map RTok.lit) h = containsSub n h := by
  induction h with
  | nil => cases n <;> rfl
  | cons d hs ih => simp [matchSearch, containsSub, matchHere_lits, ih]

/-- C8 (amended): the search criterion evaluates the search string as a
case-insensitive regular expression over `title`, `description`, and the
elements of `tags`; for search strings made only of literal characters
(no regex metacharacter, no `.`) this coincides with the claimed
case-insensitive substring match against the three fields.  On patterns
with metacharacters the two notions differ (see the counterexample). -/
theorem search_literal_matches_substring (needle : String) (c : Challenge)
    (h : ∀ ch ∈ needle.data, ch ∉ metaChars ∧ ch ≠ '.') :
    searchCriterion needle c = some (specSearchSubstring needle c) := by
  unfold searchCriterion regexCompileCI
  rw [regexCompile_all_literal needle.data h]
  simp only [Option.map_some', Option.some.injEq]
  rw [applyIFlag_lits]
  unfold searchMatches specSearchSubstring lowerChars
  simp only [matchSearch_lits]

/-- Witness for C8 (amended): a literal search string on a concrete
challenge. -/
theorem search_literal_matches_substring_witness :
    searchCriterion "tree" (mkChallengeW 1 0 none)
      = some (specSearchSubstring "tree" (mkChallengeW 1 0 none)) :=
  search_literal_matches_substring "tree" (mkChallengeW 1 0 none) (by decide)

/-! ## C7 -/

/-- C7 counterexample: (i) a search parameter of `"("` makes the filter
construction fail (`new RegExp("(")` throws), contradicting "never
fails"; (ii) an unparsable `participantsMax` of `"abc"` yields a `NaN`
upper bound that excludes a challenge which matches when the parameter
is absent — far from "imposes no constraint". -/
theorem filter_build_counterexample :
    buildChallengeFilters { search := some "(" } = none ∧
    ((buildChallengeFilters { participantsMax := some "abc" }).map
        (fun f => matchesFilters f (mkChallengeW 1 0 none)) = some false) ∧
    ((buildChallengeFilters {}).map
        (fun f => matchesFilters f (mkChallengeW 1 0 none)) = some true) := by decide

theorem truthyStr_none : truthyStr none = false := rfl

theorem parseDateSafe_none : parseDateSafe none = none := rfl

theorem parseDateSafe_eq_none_of_falsy (v : Option String) (h : truthyStr v = false) :
    parseDateSafe v = none := by
  cases v with
  | none => rfl
  | some s =>
    unfold truthyStr at h
    simp only [decide_eq_false_iff_not, not_not] at h
    subst h
    rfl

/-- C7 (amended): the filter construction fails only when the search
pattern does not compile; unparsable `startDate`/`endDate` strings are
silently ignored (the built filter equals the one with the parameter
absent); an unparsable `participantsMin` leaves a `NaN` lower bound that
every challenge satisfies (no constraint on the predicate); but an
unparsable `participantsMax` leaves a `NaN` upper bound that no
challenge satisfies — the filter then matches nothing, so that one
invalid numeric string is not equivalent to the parameter being
absent. -/
theorem filter_build_amended (q : ListQuery) :
    ((truthyStr q.search = false ∨ (regexCompileCI (getStr q.search)).isSome) →
      (buildChallengeFilters q).isSome) ∧
    (parseDateSafe q.startDate = none →
      buildChallengeFilters q = buildChallengeFilters { q with startDate := none }) ∧
    (parseDateSafe q.endDate = none →
      buildChallengeFilters q = buildChallengeFilters { q with endDate := none }) ∧
    (truthyStr q.participantsMin = true → jsParseInt (getStr q.participantsMin) = none →
      ∀ c f f', buildChallengeFilters q = some f →
        buildChallengeFilters { q with participantsMin := none } = some f' →
        matchesFilters f c = matchesFilters f' c) ∧
    (truthyStr q.participantsMax = true → jsParseInt (getStr q.participantsMax) = none →
      ∀ c f, buildChallengeFilters q = some f → matchesFilters f c = false) := by
  obtain ⟨qp, ql, qc, qsd, qed, qmin, qmax, qse⟩ := q
  refine ⟨?_, ?_, ?_, ?_, ?_⟩
  · intro ha
    have ha' : truthyStr qse = false ∨ (regexCompileCI (getStr qse)).isSome = true := ha
    unfold buildChallengeFilters
    by_cases hs : truthyStr qse = true
    · rcases ha' with ha' | ha'
      · rw [hs] at ha'
        exact absurd ha' (by simp)
      · obtain ⟨p, hp⟩ := Option.isSome_iff_exists.mp ha'
        simp [hs, hp]
    · have hs' : truthyStr qse = false := by simpa using hs
      simp [hs']
  · intro hb
    have hb' : parseDateSafe qsd = none := hb
    unfold buildChallengeFilters
    cases hsr : (if truthyStr qse then (regexCompileCI (getStr qse)).map some else some none) with
    | none => rfl
    | some sre =>
      by_cases te : truthyStr qed = true
      · simp [hb', te, truthyStr_none, parseDateSafe_none]
      · have te' : truthyStr qed = false := by simpa using te
        have he := parseDateSafe_eq_none_of_falsy qed te'
        simp [hb', te', he, truthyStr_none, parseDateSafe_none]
  · intro hc
    have hc' : parseDateSafe qed = none := hc
    unfold buildChallengeFilters
    cases hsr : (if truthyStr qse then (regexCompileCI (getStr qse)).map some else some none) with
    | none => rfl
    | some sre =>
      by_cases ts : truthyStr qsd = true
      · simp [hc', ts, truthyStr_none, parseDateSafe_none]
      · have ts' : truthyStr qsd = false := by simpa using ts
        have hd := parseDateSafe_eq_none_of_falsy qsd ts'
        simp [hc', ts', hd, truthyStr_none, parseDateSafe_none]
  · intro h1 h2 c f f' hf hf'
    have h1' : truthyStr qmin = true := h1
    have h2' : jsParseInt (getStr qmin) = none := h2
    unfold buildChallengeFilters at hf hf'
    cases hsr : (if truthyStr qse then (regexCompileCI (getStr qse)).map some else some none) with
    | none =>
      rw [hsr] at hf
      exact absurd hf (by simp)
    | some sre =>
      rw [hsr] at hf hf'
      injection hf with hf
      injection hf' with hf'
      subst hf
      subst hf'
      unfold matchesFilters
      simp [h1', h2', truthyStr_none, jsNumGe]
  · intro h1 h2 c f hf
    have h1' : truthyStr qmax = true := h1
    have h2' : jsParseInt (getStr qmax) = none := h2
    unfold buildChallengeFilters at hf
    cases hsr : (if truthyStr qse then (regexCompileCI (getStr qse)).map some else some none) with
    | none =>
      rw [hsr] at hf
      exact absurd hf (by simp)
    | some sre =>
      rw [hsr] at hf
      injection hf with hf
      subst hf
      unfold matchesFilters
      simp [h1', h2', jsNumLe]

/-- The filter built from an unparsable `participantsMin`. -/
def c7MinBadFilter : ChallengeFilters :=
  { categories := none, startGte := none, startLte := none,
    partGte := some none, partLte := none, search := none }

/-- The filter built from an empty query. -/
def c7EmptyFilter : ChallengeFilters :=
  { categories := none, startGte := none, startLte := none,
    partGte := none, partLte := none, search := none }

/-- The filter built from an unparsable `participantsMax`. -/
def c7MaxBadFilter : ChallengeFilters :=
  { categories := none, startGte := none, startLte := none,
    partGte := none, partLte := some none, search := none }

/-- Witness for C7 (amended) at concrete query configurations. -/
theorem filter_build_amended_witness :
    (buildChallengeFilters { search := some "tree" }).isSome ∧
    buildChallengeFilters { startDate := some "garbage" } = buildChallengeFilters {} ∧
    buildChallengeFilters { endDate := some "garbage" } = buildChallengeFilters {} ∧
    matchesFilters c7MinBadFilter (mkChallengeW 1 0 none)
      = matchesFilters c7EmptyFilter (mkChallengeW 1 0 none) ∧
    matchesFilters c7MaxBadFilter (mkChallengeW 1 0 none) = false := by
  refine ⟨(filter_build_amended { search := some "tree" }).1 (Or.inr (by decide)),
    (filter_build_amended { startDate := some "garbage" }).2.1 (by decide),
    (filter_build_amended { endDate := some "garbage" }).2.2.1 (by decide),
    (filter_build_amended { participantsMin := some "abc" }).2.2.2.1 (by decide) (by decide)
      (mkChallengeW 1 0 none) c7MinBadFilter c7EmptyFilter (by decide) (by decide),
    (filter_build_amended { participantsMax := some "abc" }).2.2.2.2 (by decide) (by decide)
      (mkChallengeW 1 0 none) c7MaxBadFilter (by decide)⟩

end EcoTrack
